import Mathlib

/-!
Shallow embedding of the `swa_acc` accounting module: the Giro lifecycle
state machine (`az_giro_input.py`), the `account.move` partner-propagation
override (`account_move.py`), and the manufacturing WIP posting engine
(`mrp_wip_accounting.py`, `product_category.py`).

Monetary amounts are modelled as exact rationals, record links as `Option`
values carrying the linked journal entry, and user-facing exceptions as
`Except` errors.  Stateful actions that the source performs by mutating the
record return the updated record; an action that raises after having
already written to the record returns the error together with the record
as written at the moment of the raise (mirroring the in-transaction state;
rollback belongs to the host transaction layer, which is out of scope).
-/

namespace SwaAcc

abbrev AccountId := Nat
abbrev PartnerId := Nat
abbrev JournalId := Nat

/-- User-facing error taxonomy of the module: `UserError` / `ValidationError`
from `odoo.exceptions`, the WIP configuration-missing `UserError` (kept as its
own constructor so the category and missing role names are visible), and a
posting failure signalled by the external ledger collaborator. -/
inductive UErr where
  | userError (msg : String)
  | validationError (msg : String)
  | configurationMissing (category : String) (missing : List String)
  | postingError
deriving DecidableEq, Repr

/-- `account.move.state` (the two states used by this module). -/
inductive MoveState where
  | draft
  | posted
deriving DecidableEq, Repr

/-- One `account.move.line` as created by this module. -/
structure MoveLine where
  account_id : AccountId
  partner_id : Option PartnerId
  name : String
  debit : ℚ
  credit : ℚ
  date : Option Nat
deriving DecidableEq, Repr

/-- An `account.move` journal entry (the fields this module reads/writes). -/
structure AccountMove where
  journal_id : JournalId
  date : Nat
  ref : String
  line_ids : List MoveLine
  partner_id : Option PartnerId
  state : MoveState
deriving DecidableEq, Repr

/-- `AccountMove.action_post` override from `account_move.py`: before the
ledger posts the entry, if any line has a partner, the move header partner is
overwritten with the partner of the first such line.  The external
`super().action_post()` is modelled as setting the state to `posted`. -/
def AccountMove.action_post (m : AccountMove) : AccountMove :=
  let m1 :=
    match m.line_ids.filterMap MoveLine.partner_id with
    | [] => m
    | p :: _ => if m.partner_id = some p then m else { m with partner_id := some p }
  { m1 with state := .posted }

/-- `AccountMoveLine.write` override from `account_move.py`, specialised to a
write of `partner_id` on the line at index `i` of its move: the line is
updated, then the partner is propagated to the parent move header whenever it
differs. -/
def AccountMoveLine.write_partner (m : AccountMove) (i : Nat) (p : PartnerId) : AccountMove :=
  match m.line_ids[i]? with
  | none => m
  | some l =>
    let m1 := { m with line_ids := m.line_ids.set i { l with partner_id := some p } }
    if m1.partner_id = some p then m1 else { m1 with partner_id := some p }

/-- `AccountMoveLine.create` override from `account_move.py`: the line is
created on its move, and if the creation vals carry a partner it is
propagated to the parent move header whenever it differs. -/
def AccountMoveLine.create (m : AccountMove) (l : MoveLine) : AccountMove :=
  let m1 := { m with line_ids := m.line_ids ++ [l] }
  match l.partner_id with
  | some p => if m1.partner_id = some p then m1 else { m1 with partner_id := some p }
  | none => m1

/-! ## Giro lifecycle (`az_giro_input.py`) -/

inductive PartnerType where
  | customer
  | vendor
deriving DecidableEq, Repr

/-- The six-state `state` selection of `az.giro.input`. -/
inductive GiroState where
  | draft
  | confirmed
  | cleared
  | clearing_reversed
  | reversed
  | cancelled
deriving DecidableEq, Repr

/-- External collaborators read by the Giro actions: partner master data
(payable/receivable control accounts), the company general journal found by
`_create_account_move`, and the context date `fields.Date.context_today`. -/
structure GiroEnv where
  payable : PartnerId → Option AccountId
  receivable : PartnerId → Option AccountId
  general_journal : Option JournalId
  today : Nat

/-- One `az.giro.input` record.  The four entry links hold the linked journal
entry itself; the three `is_*` booleans are the stored computed flags. -/
structure GiroRecord where
  name : String
  partner_type : PartnerType
  partner_id : PartnerId
  amount : ℚ
  date : Nat
  cheque_reference : Option String
  giro_account_id : Option AccountId
  journal_bank_id : Option JournalId
  bank_account_id : Option AccountId
  account_move_id : Option AccountMove
  clearing_move_id : Option AccountMove
  reverse_move_id : Option AccountMove
  reverse_clearing_move_id : Option AccountMove
  state : GiroState
  is_cleared : Bool
  is_reversed : Bool
  is_clearing_reversed : Bool
deriving DecidableEq, Repr

/-- The stored computed flags `_compute_is_cleared`, `_compute_is_reversed`
and `_compute_is_clearing_reversed`, recomputed by the ORM whenever their
`@api.depends` link changes. -/
def recompute_flags (r : GiroRecord) : GiroRecord :=
  { r with
    is_cleared := r.clearing_move_id.isSome
    is_reversed := r.reverse_move_id.isSome
    is_clearing_reversed := r.reverse_clearing_move_id.isSome }

/-- A freshly created `az.giro.input` record: state `draft`, no entry links,
flags false. -/
def mkGiro (pt : PartnerType) (pid : PartnerId) (amount : ℚ) (date : Nat)
    (cheque : Option String) (ga : Option AccountId) (jb : Option JournalId)
    (ba : Option AccountId) : GiroRecord :=
  { name := "GIRO"
    partner_type := pt
    partner_id := pid
    amount := amount
    date := date
    cheque_reference := cheque
    giro_account_id := ga
    journal_bank_id := jb
    bank_account_id := ba
    account_move_id := none
    clearing_move_id := none
    reverse_move_id := none
    reverse_clearing_move_id := none
    state := .draft
    is_cleared := false
    is_reversed := false
    is_clearing_reversed := false }

/-- Partner control account lookup inside `_create_account_move`: the payable
account for a vendor giro, the receivable account for a customer giro, with
the corresponding `ValidationError` when unset. -/
def partner_control_account (env : GiroEnv) (r : GiroRecord) : Except UErr AccountId :=
  match r.partner_type with
  | .vendor =>
    match env.payable r.partner_id with
    | some a => .ok a
    | none => .error (.validationError "Partner does not have a payable account configured.")
  | .customer =>
    match env.receivable r.partner_id with
    | some a => .ok a
    | none => .error (.validationError "Partner does not have a receivable account configured.")

/-- `AzGiroInput._create_account_move`: two lines, debit giro account / credit
partner control account, both for the full amount, on the first general
journal of the company. -/
def GiroRecord.create_account_move (r : GiroRecord) (env : GiroEnv) :
    Except UErr AccountMove := do
  let partner_account ← partner_control_account env r
  let journal ←
    match env.general_journal with
    | some j => pure j
    | none => .error (.validationError "No general journal found for company.")
  let line_name := r.cheque_reference.getD r.name
  .ok
    { journal_id := journal
      date := r.date
      ref := r.name
      partner_id := some r.partner_id
      state := .draft
      line_ids :=
        [ { account_id := r.giro_account_id.getD 0
            partner_id := some r.partner_id
            name := line_name
            debit := r.amount
            credit := 0
            date := some r.date }
        , { account_id := partner_account
            partner_id := some r.partner_id
            name := line_name
            debit := 0
            credit := r.amount
            date := some r.date } ] }

/-- `AzGiroInput.action_confirm`.  `post_ok` models the outcome of the
external ledger posting: when false, `move.action_post()` raises.  On a raise
the error is returned together with the record as already written. -/
def GiroRecord.action_confirm (r : GiroRecord) (env : GiroEnv) (post_ok : Bool) :
    Except (UErr × GiroRecord) GiroRecord :=
  if r.state ≠ .draft then
    .error (.userError "Only draft giro can be confirmed.", r)
  else if r.giro_account_id = none then
    .error (.validationError "Giro Account is required before confirmation.", r)
  else
    match r.create_account_move env with
    | .error e => .error (e, r)
    | .ok move =>
      let r1 := recompute_flags { r with state := .confirmed, account_move_id := some move }
      if post_ok then
        .ok (recompute_flags { r1 with account_move_id := some move.action_post })
      else
        .error (.postingError, r1)

/-- `AzGiroInput._create_clearing_move`: debit bank account / credit giro
account on the bank journal, dated today. -/
def GiroRecord.create_clearing_move (r : GiroRecord) (env : GiroEnv) :
    Except UErr AccountMove :=
  match r.journal_bank_id with
  | none => .error (.validationError "Bank Journal is required for clearing.")
  | some journal =>
    let label := "Clearing: " ++ r.cheque_reference.getD r.name
    .ok
      { journal_id := journal
        date := env.today
        ref := "Clearing: " ++ r.name
        partner_id := some r.partner_id
        state := .draft
        line_ids :=
          [ { account_id := r.bank_account_id.getD 0
              partner_id := some r.partner_id
              name := label
              debit := r.amount
              credit := 0
              date := some env.today }
          , { account_id := r.giro_account_id.getD 0
              partner_id := some r.partner_id
              name := label
              debit := 0
              credit := r.amount
              date := some env.today } ] }

/-- `AzGiroInput.action_clearing`. -/
def GiroRecord.action_clearing (r : GiroRecord) (env : GiroEnv) (post_ok : Bool) :
    Except (UErr × GiroRecord) GiroRecord :=
  if r.state ≠ .confirmed then
    .error (.userError "Only confirmed giro can be cleared.", r)
  else if r.is_cleared then
    .error (.userError "This giro has already been cleared.", r)
  else if r.journal_bank_id = none then
    .error (.validationError "Bank Journal is required for clearing.", r)
  else if r.bank_account_id = none then
    .error (.validationError "Bank Account is not configured in the selected Bank Journal.", r)
  else
    match r.create_clearing_move env with
    | .error e => .error (e, r)
    | .ok move =>
      let r1 := recompute_flags { r with clearing_move_id := some move, state := .cleared }
      if post_ok then
        .ok (recompute_flags { r1 with clearing_move_id := some move.action_post })
      else
        .error (.postingError, r1)

/-- Line reversal inside `_create_reverse_move`: debit and credit swapped,
account and partner preserved, dated today. -/
def reverse_line (today : Nat) (l : MoveLine) : MoveLine :=
  { account_id := l.account_id
    partner_id := l.partner_id
    name := l.name
    debit := l.credit
    credit := l.debit
    date := some today }

/-- `AzGiroInput._create_reverse_move`: a new draft entry on the original
journal whose lines are the original lines with debit and credit swapped. -/
def GiroRecord.create_reverse_move (r : GiroRecord) (env : GiroEnv)
    (original : AccountMove) (rref : String) : AccountMove :=
  { journal_id := original.journal_id
    date := env.today
    ref := rref
    partner_id := some r.partner_id
    state := .draft
    line_ids := original.line_ids.map (reverse_line env.today) }

/-- `AzGiroInput.action_reverse_giro`. -/
def GiroRecord.action_reverse_giro (r : GiroRecord) (env : GiroEnv) (post_ok : Bool) :
    Except (UErr × GiroRecord) GiroRecord :=
  if ¬(r.state = .confirmed ∨ r.state = .cleared ∨ r.state = .clearing_reversed) then
    .error (.userError "Only confirmed, cleared, or clearing reversed giro can be reversed.", r)
  else
    match r.account_move_id with
    | none => .error (.userError "No journal entry found to reverse.", r)
    | some m =>
      if m.state ≠ .posted then
        .error (.userError "Only posted journal entries can be reversed.", r)
      else if r.is_reversed then
        .error (.userError "This giro has already been reversed.", r)
      else
        let move := r.create_reverse_move env m ("Reverse: " ++ r.name)
        let r1 := recompute_flags { r with reverse_move_id := some move, state := .reversed }
        if post_ok then
          .ok (recompute_flags { r1 with reverse_move_id := some move.action_post })
        else
          .error (.postingError, r1)

/-- `AzGiroInput.action_reverse_clearing`. -/
def GiroRecord.action_reverse_clearing (r : GiroRecord) (env : GiroEnv) (post_ok : Bool) :
    Except (UErr × GiroRecord) GiroRecord :=
  if ¬(r.state = .cleared ∨ r.state = .reversed) then
    .error (.userError "Only cleared or reversed giro can have clearing reversed.", r)
  else
    match r.clearing_move_id with
    | none => .error (.userError "No clearing entry found to reverse.", r)
    | some m =>
      if m.state ≠ .posted then
        .error (.userError "Only posted clearing entries can be reversed.", r)
      else if r.is_clearing_reversed then
        .error (.userError "This clearing has already been reversed.", r)
      else
        let move := r.create_reverse_move env m ("Reverse Clearing: " ++ r.name)
        let r1 := recompute_flags { r with reverse_clearing_move_id := some move, state := .clearing_reversed }
        if post_ok then
          .ok (recompute_flags { r1 with reverse_clearing_move_id := some move.action_post })
        else
          .error (.postingError, r1)

/-- `AzGiroInput.action_cancel`: the only check is that the primary entry, if
set, is not posted; then the state is written to `cancelled`. -/
def GiroRecord.action_cancel (r : GiroRecord) : Except (UErr × GiroRecord) GiroRecord :=
  match r.account_move_id with
  | some m =>
    if m.state = .posted then
      .error (.userError "Cannot cancel. Please reverse the journal entry first.", r)
    else
      .ok { r with state := .cancelled }
  | none => .ok { r with state := .cancelled }

/-- `AzGiroInput.action_draft`: refuse when the clearing entry or (from
`confirmed`) the primary entry is posted; otherwise unlink the draft entries
and reset to `draft`. -/
def GiroRecord.action_draft (r : GiroRecord) : Except (UErr × GiroRecord) GiroRecord :=
  if r.clearing_move_id.any (fun cm => cm.state == .posted) then
    .error (.userError "Cannot reset to draft. The clearing journal entry is already posted.", r)
  else if r.state = .confirmed ∧ r.account_move_id.any (fun m => m.state == .posted) then
    .error (.userError "Cannot reset to draft. The journal entry is already posted.", r)
  else
    .ok (recompute_flags { r with state := .draft, account_move_id := none, clearing_move_id := none })

/-- A Giro record is reachable when it is freshly created or results from a
successful lifecycle action on a reachable record. -/
inductive GiroReachable : GiroRecord → Prop where
  | created (pt : PartnerType) (pid : PartnerId) (amount : ℚ) (date : Nat)
      (cheque : Option String) (ga : Option AccountId) (jb : Option JournalId)
      (ba : Option AccountId) :
      GiroReachable (mkGiro pt pid amount date cheque ga jb ba)
  | confirm (env : GiroEnv) (post_ok : Bool) (r r' : GiroRecord) :
      GiroReachable r → r.action_confirm env post_ok = .ok r' → GiroReachable r'
  | clearing (env : GiroEnv) (post_ok : Bool) (r r' : GiroRecord) :
      GiroReachable r → r.action_clearing env post_ok = .ok r' → GiroReachable r'
  | reverse (env : GiroEnv) (post_ok : Bool) (r r' : GiroRecord) :
      GiroReachable r → r.action_reverse_giro env post_ok = .ok r' → GiroReachable r'
  | reverse_clearing (env : GiroEnv) (post_ok : Bool) (r r' : GiroRecord) :
      GiroReachable r → r.action_reverse_clearing env post_ok = .ok r' → GiroReachable r'
  | cancel (r r' : GiroRecord) :
      GiroReachable r → r.action_cancel = .ok r' → GiroReachable r'
  | reset (r r' : GiroRecord) :
      GiroReachable r → r.action_draft = .ok r' → GiroReachable r'

/-- How many of the six state values the record currently is in. -/
def state_count (r : GiroRecord) : Nat :=
  ([GiroState.draft, .confirmed, .cleared, .clearing_reversed, .reversed, .cancelled].filter
    (fun s => r.state == s)).length

/-! ## WIP posting engine (`mrp_wip_accounting.py`, `product_category.py`) -/

/-- One `stock.move.line` of a raw-material move, with the valuation data
`_calculate_component_value` reads from it (the lot standard price is 0 when
the lot carries no price, mirroring Python falsiness). -/
structure StockMoveLine where
  picked : Bool
  quantity : ℚ
  quantity_product_uom : ℚ
  date : Option Nat
  lot_id : Option Nat
  lot_standard_price : ℚ
  lot_valuated : Bool
  standard_price : ℚ
deriving DecidableEq, Repr

inductive WoState where
  | done
  | progress
  | other
deriving DecidableEq, Repr

/-- One `mrp.workorder` with the costing data read by
`_calculate_overhead_value`. -/
structure WorkOrder where
  state : WoState
  duration : ℚ
  costs_hour : ℚ
deriving DecidableEq, Repr

/-- A `product.category` with the account properties this module reads.
`az_property_overhead_account_id` is not declared on `product.category`
anywhere in this module, so the `hasattr` guard in
`_resolve_overhead_account` is false and that branch is dead. -/
structure CategoryCfg where
  name : String
  property_stock_valuation_account_id : Option AccountId
  property_stock_account_input_categ_id : Option AccountId
  property_stock_account_output_categ_id : Option AccountId
  property_stock_account_production_cost_id : Option AccountId
  az_property_wip_account_id : Option AccountId
  az_property_raw_material_account_id : Option AccountId
  az_property_raf_account_id : Option AccountId
deriving DecidableEq, Repr

/-- The finished product of a manufacturing order (its category drives
account resolution). -/
structure ProductCfg where
  categ_id : Option CategoryCfg
deriving DecidableEq, Repr

/-- One `mrp.production` with the data the WIP wizard reads. -/
structure Production where
  name : String
  product_id : Option ProductCfg
  move_raw_line_ids : List StockMoveLine
  workorder_ids : List WorkOrder
deriving DecidableEq, Repr

/-- Company-level WIP configuration (`res.company` fields read by the
resolvers). -/
structure CompanyCfg where
  account_production_wip_account_id : Option AccountId
  account_production_wip_overhead_account_id : Option AccountId
deriving DecidableEq, Repr

/-- External configuration read by the WIP engine: the company defaults, the
`ir.property` company-dependent fallbacks used by `_get_fallback_accounts`,
and the optional `workorder._cal_cost` override dispatched reflectively by
`_calculate_overhead_value`. -/
structure WipEnv where
  company : CompanyCfg
  fallback_stock_valuation : Option AccountId
  fallback_stock_input : Option AccountId
  fallback_stock_output : Option AccountId
  cal_cost : Option (List WorkOrder → Nat → ℚ)

/-- Unit price selection in `_calculate_component_value`: the lot standard
price when the product is lot-valuated, a lot is set and the lot price is
truthy, else the product standard price. -/
def unit_price (ml : StockMoveLine) : ℚ :=
  if ml.lot_valuated ∧ ml.lot_id.isSome ∧ ml.lot_standard_price ≠ 0 then
    ml.lot_standard_price
  else
    ml.standard_price

/-- Contribution of one raw-material move line to the component value:
skipped when not picked, zero-quantity, or dated after the cutoff. -/
def move_line_component_value (cutoff : Nat) (ml : StockMoveLine) : ℚ :=
  if ¬ml.picked ∨ ml.quantity = 0 then 0
  else if ml.date.any (fun d => cutoff < d) then 0
  else ml.quantity_product_uom * unit_price ml

/-- `MrpWipAccounting._calculate_component_value`. -/
def calculate_component_value (prods : List Production) (cutoff : Nat) : ℚ :=
  if prods.isEmpty then 0
  else (((prods.map Production.move_raw_line_ids).flatten).map
    (move_line_component_value cutoff)).sum

/-- Cost of one work order in the fallback overhead computation: only `done`
and `progress` work orders contribute (duration minutes / 60) × cost/hour. -/
def workorder_cost (wo : WorkOrder) : ℚ :=
  if wo.state = .done ∨ wo.state = .progress then
    (if wo.duration = 0 then 0 else wo.duration / 60) * wo.costs_hour
  else 0

/-- `MrpWipAccounting._calculate_overhead_value`: zero without productions or
work orders, else the `_cal_cost` override when available, else the duration
× workcenter-cost fallback. -/
def calculate_overhead_value (env : WipEnv) (prods : List Production) (cutoff : Nat) : ℚ :=
  let wos := (prods.map Production.workorder_ids).flatten
  if prods.isEmpty ∨ wos.isEmpty then 0
  else
    match env.cal_cost with
    | some f => f wos cutoff
    | none => (wos.map workorder_cost).sum

/-- `MrpWipAccounting._resolve_wip_account`: category override, else company
default, else nothing. -/
def resolve_wip_account (env : WipEnv) (cat : CategoryCfg) : Option AccountId :=
  match cat.az_property_wip_account_id with
  | some a => some a
  | none => env.company.account_production_wip_account_id

/-- `MrpWipAccounting._resolve_overhead_account`: the category override field
is not declared in this module (dead `hasattr` branch), so the chain is
company default, else category production-cost account, else category stock
input account, else nothing. -/
def resolve_overhead_account (env : WipEnv) (cat : CategoryCfg) : Option AccountId :=
  match env.company.account_production_wip_overhead_account_id with
  | some a => some a
  | none =>
    match cat.property_stock_account_production_cost_id with
    | some a => some a
    | none => cat.property_stock_account_input_categ_id

/-- `MrpWipAccounting._resolve_raw_material_account`: category override, else
category stock valuation account, else nothing. -/
def resolve_raw_material_account (cat : CategoryCfg) : Option AccountId :=
  match cat.az_property_raw_material_account_id with
  | some a => some a
  | none => cat.property_stock_valuation_account_id

/-- The account dictionary assembled by `_get_accounts_from_category`. -/
structure ResolvedAccounts where
  stock_valuation : Option AccountId
  stock_input : Option AccountId
  stock_output : Option AccountId
  wip : Option AccountId
  overhead : Option AccountId
  raw_material : Option AccountId
deriving DecidableEq, Repr

/-- `MrpWipAccounting._get_fallback_accounts`: `ir.property` fallbacks for the
stock accounts, company defaults for wip/overhead. -/
def fallback_accounts (env : WipEnv) : ResolvedAccounts :=
  { stock_valuation := env.fallback_stock_valuation
    stock_input := env.fallback_stock_input
    stock_output := env.fallback_stock_output
    wip := env.company.account_production_wip_account_id
    overhead := env.company.account_production_wip_overhead_account_id
    raw_material := env.fallback_stock_valuation }

/-- The missing-account list assembled by `_validate_accounts`: only the
stock-valuation, WIP and overhead roles are checked. -/
def missing_account_names (a : ResolvedAccounts) : List String :=
  (if a.stock_valuation = none then ["Stock Valuation Account"] else []) ++
  (if a.wip = none then ["WIP Account"] else []) ++
  (if a.overhead = none then ["Overhead Account"] else [])

/-- `MrpWipAccounting._validate_accounts`: raise naming the category and the
missing roles when any of the three required accounts is absent. -/
def validate_accounts (a : ResolvedAccounts) (cat : CategoryCfg) : Except UErr Unit :=
  match missing_account_names a with
  | [] => .ok ()
  | ms => .error (.configurationMissing cat.name ms)

/-- The account dictionary assembled by `_get_accounts_from_category` when a
category is present. -/
def category_resolved_accounts (env : WipEnv) (cat : CategoryCfg) : ResolvedAccounts :=
  { stock_valuation := cat.property_stock_valuation_account_id
    stock_input := cat.property_stock_account_input_categ_id
    stock_output := cat.property_stock_account_output_categ_id
    wip := resolve_wip_account env cat
    overhead := resolve_overhead_account env cat
    raw_material := resolve_raw_material_account cat }

/-- `MrpWipAccounting._get_accounts_from_category`: with no productions, no
product or no category, return the fallback accounts (without validation);
otherwise resolve from the category of the first production and validate. -/
def get_accounts_from_category (env : WipEnv) (prods : List Production) :
    Except UErr ResolvedAccounts :=
  match prods with
  | [] => .ok (fallback_accounts env)
  | p :: _ =>
    match p.product_id with
    | none => .ok (fallback_accounts env)
    | some prod =>
      match prod.categ_id with
      | none => .ok (fallback_accounts env)
      | some cat =>
        let a := category_resolved_accounts env cat
        match validate_accounts a cat with
        | .ok _ => .ok a
        | .error e => .error e

inductive WipLineType where
  | component
  | overhead
  | wip
  | variance
  | other
deriving DecidableEq, Repr

/-- One `mrp.account.wip.accounting.line` as created by `_get_line_vals`
(an account of `none` mirrors an `account_id` of `False` in the vals). -/
structure WipLineVals where
  sequence : Nat
  label : String
  line_type : WipLineType
  debit : ℚ
  credit : ℚ
  account_id : Option AccountId
  mo_id : Option String
deriving DecidableEq, Repr

/-- The `mo_id` back-reference on emitted lines: the single selected
production, none when several are selected. -/
def wip_mo_ref (prods : List Production) : Option String :=
  match prods with
  | [p] => some p.name
  | _ => none

/-- The line emission of `_get_line_vals` once values and accounts are known:
credit stock valuation for the component value (if truthy), credit overhead
for the overhead value (if truthy), debit WIP for the total (if truthy). -/
def build_wip_lines (compo_value overhead_value : ℚ) (accounts : ResolvedAccounts)
    (mo_ref : Option String) : List WipLineVals :=
  (if compo_value ≠ 0 then
    [{ sequence := 10, label := "WIP - Component Value", line_type := .component
       debit := 0, credit := compo_value, account_id := accounts.stock_valuation
       mo_id := mo_ref }]
  else []) ++
  (if overhead_value ≠ 0 then
    [{ sequence := 20, label := "WIP - Overhead", line_type := .overhead
       debit := 0, credit := overhead_value, account_id := accounts.overhead
       mo_id := mo_ref }]
  else []) ++
  (if compo_value + overhead_value ≠ 0 then
    [{ sequence := 30, label := "Manufacturing WIP", line_type := .wip
       debit := compo_value + overhead_value, credit := 0, account_id := accounts.wip
       mo_id := mo_ref }]
  else [])

/-- `MrpWipAccounting._get_line_vals`: compute component and overhead values,
resolve accounts (validation may raise first), then emit the lines. -/
def get_line_vals (env : WipEnv) (prods : List Production) (cutoff : Nat) :
    Except UErr (List WipLineVals) := do
  let compo_value := calculate_component_value prods cutoff
  let overhead_value := calculate_overhead_value env prods cutoff
  let accounts ← get_accounts_from_category env prods
  pure (build_wip_lines compo_value overhead_value accounts (wip_mo_ref prods))

inductive WizardState where
  | draft
  | posted
  | reversed
deriving DecidableEq, Repr

/-- The `mrp.account.wip.accounting` wizard (the fields `action_post`
reads/writes). -/
structure WipWizard where
  date : Nat
  journal_id : JournalId
  reference : String
  line_ids : List WipLineVals
  move_id : Option AccountMove
  state : WizardState
deriving DecidableEq, Repr

/-- `MrpWipAccounting._compute_totals`: total debit. -/
def WipWizard.total_debit (w : WipWizard) : ℚ :=
  (w.line_ids.map WipLineVals.debit).sum

/-- `MrpWipAccounting._compute_totals`: total credit. -/
def WipWizard.total_credit (w : WipWizard) : ℚ :=
  (w.line_ids.map WipLineVals.credit).sum

/-- `MrpWipAccounting._compute_totals`: balanced means the absolute
difference between total debit and credit is below 0.01. -/
def WipWizard.is_balanced (w : WipWizard) : Bool :=
  |w.total_debit - w.total_credit| < (0.01 : ℚ)

/-- `MrpWipAccounting._prepare_move_vals`: an `entry` move on the wizard
journal carrying one line per wizard line. -/
def WipWizard.prepare_move_vals (w : WipWizard) : AccountMove :=
  { journal_id := w.journal_id
    date := w.date
    ref := w.reference
    partner_id := none
    state := .draft
    line_ids := w.line_ids.map (fun l =>
      { account_id := l.account_id.getD 0
        partner_id := none
        name := l.label
        debit := l.debit
        credit := l.credit
        date := none }) }

/-- `MrpWipAccounting.action_post`: refuse with no lines, refuse when
unbalanced, otherwise create and post the journal entry and move the wizard
to `posted`.  The successful result carries the posted move (an error result
means no journal entry was created). -/
def WipWizard.action_post (w : WipWizard) : Except UErr (WipWizard × AccountMove) :=
  if w.line_ids.isEmpty then
    .error (.userError "No lines to post. Please add at least one line.")
  else if ¬w.is_balanced then
    .error (.userError "The journal entry is not balanced.")
  else
    let move := w.prepare_move_vals.action_post
    .ok ({ w with move_id := some move, state := .posted }, move)

/-- The entry `_create_account_move` builds once the partner control account
`pa`, the giro account `a` and the journal `j` are resolved. -/
def confirm_move (r : GiroRecord) (a pa : AccountId) (j : JournalId) : AccountMove :=
  { journal_id := j
    date := r.date
    ref := r.name
    partner_id := some r.partner_id
    state := .draft
    line_ids :=
      [ { account_id := a, partner_id := some r.partner_id
          name := r.cheque_reference.getD r.name
          debit := r.amount, credit := 0, date := some r.date }
      , { account_id := pa, partner_id := some r.partner_id
          name := r.cheque_reference.getD r.name
          debit := 0, credit := r.amount, date := some r.date } ] }

/-- The record produced by a successful confirm: state and link written, then
the linked entry posted. -/
def confirm_result (r : GiroRecord) (a pa : AccountId) (j : JournalId) : GiroRecord :=
  recompute_flags
    { (recompute_flags
        { r with state := .confirmed, account_move_id := some (confirm_move r a pa j) }) with
      account_move_id := some (confirm_move r a pa j).action_post }

/-- The derived-flag/link agreement of a Giro record. -/
def flags_consistent (r : GiroRecord) : Prop :=
  r.is_cleared = r.clearing_move_id.isSome ∧
  r.is_reversed = r.reverse_move_id.isSome ∧
  r.is_clearing_reversed = r.reverse_clearing_move_id.isSome

/-! ## Concrete fixtures used by counterexamples and witnesses -/

def c1_env : GiroEnv :=
  { payable := fun p => if p = 7 then some 200 else none
    receivable := fun _ => none
    general_journal := some 1
    today := 5 }

def c1_giro : GiroRecord := mkGiro .vendor 7 100 3 none (some 10) none none

/-- The primary entry `_create_account_move` builds for `c1_giro`. -/
def c1_move : AccountMove :=
  { journal_id := 1
    date := 3
    ref := "GIRO"
    partner_id := some 7
    state := .draft
    line_ids :=
      [ { account_id := 10, partner_id := some 7, name := "GIRO"
          debit := 100, credit := 0, date := some 3 }
      , { account_id := 200, partner_id := some 7, name := "GIRO"
          debit := 0, credit := 100, date := some 3 } ] }

/-- The record as written when posting of the primary entry fails. -/
def c1_after : GiroRecord :=
  recompute_flags { c1_giro with state := .confirmed, account_move_id := some c1_move }

def c2_env : GiroEnv :=
  { payable := fun p => if p = 8 then some 201 else none
    receivable := fun _ => none
    general_journal := some 2
    today := 6 }

def c2_giro : GiroRecord := mkGiro .vendor 8 100 4 none (some 11) none none

def c2_giro_confirmed : GiroRecord := { c2_giro with state := .confirmed }

def c8_giro : GiroRecord := mkGiro .customer 9 250 1 none (some 12) none none

def c9_draft : GiroRecord := mkGiro .vendor 3 50 2 none (some 13) none none

def c9_cancelled : GiroRecord := { c9_draft with state := .cancelled }

/-- A posted primary entry for the C9 refusal branch. -/
def c9_posted_move : AccountMove :=
  { journal_id := 1, date := 2, ref := "GIRO", partner_id := some 3, state := .posted
    line_ids := [] }

/-- A confirmed giro whose primary entry is posted. -/
def c9_posted_rec : GiroRecord :=
  { c9_draft with state := .confirmed, account_move_id := some c9_posted_move }

def c10_move : AccountMove :=
  { journal_id := 5
    date := 1
    ref := "MISC"
    partner_id := some 9
    state := .draft
    line_ids :=
      [ { account_id := 1, partner_id := none, name := "a"
          debit := 3, credit := 0, date := none }
      , { account_id := 2, partner_id := some 4, name := "b"
          debit := 0, credit := 3, date := none } ] }

def c10_line : MoveLine :=
  { account_id := 3, partner_id := some 6, name := "c", debit := 0, credit := 0, date := none }

/-- The first line of `c10_move`. -/
def c10_first : MoveLine :=
  { account_id := 1, partner_id := none, name := "a", debit := 3, credit := 0, date := none }

def c5_cat_override : CategoryCfg :=
  { name := "CAT-A"
    property_stock_valuation_account_id := some 30
    property_stock_account_input_categ_id := none
    property_stock_account_output_categ_id := none
    property_stock_account_production_cost_id := none
    az_property_wip_account_id := some 77
    az_property_raw_material_account_id := none
    az_property_raf_account_id := none }

def c5_cat_plain : CategoryCfg := { c5_cat_override with az_property_wip_account_id := none }

def c5_env_default : WipEnv :=
  { company :=
      { account_production_wip_account_id := some 88
        account_production_wip_overhead_account_id := some 99 }
    fallback_stock_valuation := none
    fallback_stock_input := none
    fallback_stock_output := none
    cal_cost := none }

def c5_env_none : WipEnv :=
  { company :=
      { account_production_wip_account_id := none
        account_production_wip_overhead_account_id := none }
    fallback_stock_valuation := none
    fallback_stock_input := none
    fallback_stock_output := none
    cal_cost := none }

def c3_cat : CategoryCfg :=
  { name := "CAT-C3"
    property_stock_valuation_account_id := some 31
    property_stock_account_input_categ_id := none
    property_stock_account_output_categ_id := none
    property_stock_account_production_cost_id := none
    az_property_wip_account_id := some 41
    az_property_raw_material_account_id := none
    az_property_raf_account_id := none }

def c3_env : WipEnv :=
  { company :=
      { account_production_wip_account_id := none
        account_production_wip_overhead_account_id := some 51 }
    fallback_stock_valuation := none
    fallback_stock_input := none
    fallback_stock_output := none
    cal_cost := none }

def c3_ml : StockMoveLine :=
  { picked := true, quantity := 300, quantity_product_uom := 300, date := some 5
    lot_id := none, lot_standard_price := 0, lot_valuated := false, standard_price := 1 }

def c3_wo : WorkOrder := { state := .done, duration := 60, costs_hour := 50 }

def c3_mo : Production :=
  { name := "MO-C3"
    product_id := some { categ_id := some c3_cat }
    move_raw_line_ids := [c3_ml]
    workorder_ids := [c3_wo] }

def c6_cat_bare : CategoryCfg :=
  { name := "CAT-C6"
    property_stock_valuation_account_id := none
    property_stock_account_input_categ_id := none
    property_stock_account_output_categ_id := none
    property_stock_account_production_cost_id := none
    az_property_wip_account_id := none
    az_property_raw_material_account_id := none
    az_property_raf_account_id := none }

def c6_env : WipEnv :=
  { company :=
      { account_production_wip_account_id := none
        account_production_wip_overhead_account_id := none }
    fallback_stock_valuation := none
    fallback_stock_input := none
    fallback_stock_output := none
    cal_cost := none }

def c6_mo_bare : Production :=
  { name := "MO-C6"
    product_id := some { categ_id := some c6_cat_bare }
    move_raw_line_ids := []
    workorder_ids := [] }

/-- A manufacturing order whose product has no category, with one picked
component worth 300. -/
def c6_mo_nocat : Production :=
  { name := "MO-NC"
    product_id := some { categ_id := none }
    move_raw_line_ids :=
      [{ picked := true, quantity := 300, quantity_product_uom := 300, date := some 5
         lot_id := none, lot_standard_price := 0, lot_valuated := false, standard_price := 1 }]
    workorder_ids := [] }

/-- The lines `_get_line_vals` emits for `c6_mo_nocat` under `c6_env`: built
silently with empty accounts, no `ConfigurationMissing` raised. -/
def c6_cex_lines : List WipLineVals :=
  [ { sequence := 10, label := "WIP - Component Value", line_type := .component
      debit := 0, credit := 300, account_id := none, mo_id := some "MO-NC" }
  , { sequence := 30, label := "Manufacturing WIP", line_type := .wip
      debit := 300, credit := 0, account_id := none, mo_id := some "MO-NC" } ]

/-- The accounts `_get_accounts_from_category` resolves for `c3_mo`. -/
def c3_accounts : ResolvedAccounts :=
  { stock_valuation := some 31, stock_input := none, stock_output := none
    wip := some 41, overhead := some 51, raw_material := some 31 }

def c4_wiz_unbal : WipWizard :=
  { date := 1, journal_id := 1, reference := "WIP"
    line_ids :=
      [{ sequence := 10, label := "L1", line_type := .other
         debit := 1/50, credit := 0, account_id := some 1, mo_id := none }]
    move_id := none
    state := .draft }

def c4_wiz_bal : WipWizard :=
  { date := 1, journal_id := 1, reference := "WIP"
    line_ids :=
      [ { sequence := 10, label := "L1", line_type := .other
          debit := 5, credit := 0, account_id := some 1, mo_id := none }
      , { sequence := 20, label := "L2", line_type := .other
          debit := 0, credit := 5, account_id := some 2, mo_id := none } ]
    move_id := none
    state := .draft }

/-! ## Theorems -/

/-- C5: for every (category, company) input, the resolver for role `wip`
returns the category override when set, otherwise the company default WIP
account when set, otherwise nothing — each branch independently. -/
theorem wip_resolver_three_branches (env : WipEnv) (cat : CategoryCfg) :
    (∀ a, cat.az_property_wip_account_id = some a →
      resolve_wip_account env cat = some a) ∧
    (∀ b, cat.az_property_wip_account_id = none →
      env.company.account_production_wip_account_id = some b →
      resolve_wip_account env cat = some b) ∧
    (cat.az_property_wip_account_id = none →
      env.company.account_production_wip_account_id = none →
      resolve_wip_account env cat = none) := by
  refine ⟨fun a h => ?_, fun b h1 h2 => ?_, fun h1 h2 => ?_⟩ <;>
    simp [resolve_wip_account, *]

/-- Witness for C5: all three branches at concrete configurations. -/
theorem wip_resolver_three_branches_witness :
    resolve_wip_account c5_env_default c5_cat_override = some 77 ∧
    resolve_wip_account c5_env_default c5_cat_plain = some 88 ∧
    resolve_wip_account c5_env_none c5_cat_plain = none :=
  ⟨(wip_resolver_three_branches c5_env_default c5_cat_override).1 77 rfl,
   (wip_resolver_three_branches c5_env_default c5_cat_plain).2.1 88 rfl rfl,
   (wip_resolver_three_branches c5_env_none c5_cat_plain).2.2 rfl rfl⟩

/-- C7: `_create_reverse_move` swaps the debit and credit of every line while
preserving its account and partner, and reversing twice reconstructs the
original per-line debit/credit assignment. -/
theorem reverse_move_swap_and_involution (env : GiroEnv) (r : GiroRecord)
    (m : AccountMove) (ref1 ref2 : String) :
    ((r.create_reverse_move env m ref1).line_ids.map (fun l => (l.account_id, l.partner_id))
        = m.line_ids.map (fun l => (l.account_id, l.partner_id))) ∧
    ((r.create_reverse_move env m ref1).line_ids.map (fun l => (l.debit, l.credit))
        = m.line_ids.map (fun l => (l.credit, l.debit))) ∧
    ((r.create_reverse_move env (r.create_reverse_move env m ref1) ref2).line_ids.map
          (fun l => (l.debit, l.credit))
        = m.line_ids.map (fun l => (l.debit, l.credit))) := by
  refine ⟨?_, ?_, ?_⟩ <;>
  · simp only [GiroRecord.create_reverse_move, List.map_map]
    induction m.line_ids with
    | nil => rfl
    | cons hd tl ih => simp [reverse_line, ih]

/-- C10: posting a move whose lines carry a partner overwrites the header
partner with the partner of the first such line; writing or creating a move line
with a partner propagates it to the parent move header.  The override is
stated for an arbitrary move, not only Giro or WIP entries. -/
theorem account_move_partner_propagation (m : AccountMove) :
    (∀ p ps, m.line_ids.filterMap MoveLine.partner_id = p :: ps →
      m.action_post.partner_id = some p ∧ m.action_post.state = .posted) ∧
    (∀ i l p, m.line_ids[i]? = some l →
      (AccountMoveLine.write_partner m i p).partner_id = some p) ∧
    (∀ l p, l.partner_id = some p →
      (AccountMoveLine.create m l).partner_id = some p) := by
  refine ⟨fun p ps h => ⟨?_, rfl⟩, fun i l p h => ?_, fun l p h => ?_⟩
  · by_cases hm : m.partner_id = some p <;>
      simp [AccountMove.action_post, h, hm]
  · by_cases hm : m.partner_id = some p <;>
      simp [AccountMoveLine.write_partner, h, hm]
  · by_cases hm : m.partner_id = some p <;>
      simp [AccountMoveLine.create, h, hm]

/-- Witness for C10: a move with header partner 9 whose first partnered line
names partner 4 ends posted with header partner 4; a line write/create with
partner 6 rewrites the header to 6. -/
theorem account_move_partner_propagation_witness :
    (c10_move.line_ids.filterMap MoveLine.partner_id = [4] ∧
      c10_move.action_post.partner_id = some 4 ∧ c10_move.action_post.state = .posted) ∧
    (c10_move.line_ids[0]? = some c10_first ∧
      (AccountMoveLine.write_partner c10_move 0 6).partner_id = some 6) ∧
    (c10_line.partner_id = some 6 ∧
      (AccountMoveLine.create c10_move c10_line).partner_id = some 6) :=
  ⟨⟨rfl, (account_move_partner_propagation c10_move).1 4 [] rfl⟩,
   ⟨rfl, (account_move_partner_propagation c10_move).2.1 0 c10_first 6 rfl⟩,
   ⟨rfl, (account_move_partner_propagation c10_move).2.2 c10_line 6 rfl⟩⟩

/-- C4: the WIP wizard refuses to post (with the unbalanced error, creating
no journal entry) whenever the absolute debit/credit difference is at least
0.01, and proceeds to create and post the entry when it is strictly below
0.01 (given at least one line). -/
theorem wip_post_balance_gate (w : WipWizard) :
    ((0.01 : ℚ) ≤ |w.total_debit - w.total_credit| →
      w.action_post = .error (.userError "The journal entry is not balanced.")) ∧
    (w.line_ids ≠ [] → |w.total_debit - w.total_credit| < (0.01 : ℚ) →
      ∃ w' mv, w.action_post = .ok (w', mv) ∧ mv.state = .posted ∧
        w'.state = .posted ∧ w'.move_id = some mv) := by
  constructor
  · intro h
    have hl : ¬w.line_ids.isEmpty := by
      intro he
      have h0 : w.line_ids = [] := List.isEmpty_iff.mp he
      rw [WipWizard.total_debit, WipWizard.total_credit, h0] at h
      norm_num at h
    have hb : w.is_balanced = false := by
      simp [WipWizard.is_balanced, not_lt.mpr h]
    simp [WipWizard.action_post, hl, hb]
  · intro hne hlt
    have hl : ¬w.line_ids.isEmpty := by simpa [List.isEmpty_iff] using hne
    have hb : w.is_balanced = true := by simp [WipWizard.is_balanced, hlt]
    refine ⟨{ w with move_id := some w.prepare_move_vals.action_post, state := .posted },
      w.prepare_move_vals.action_post, ?_, rfl, rfl, rfl⟩
    simp [WipWizard.action_post, hl, hb]

/-- Witness for C4: a 0.02 imbalance is refused; a balanced wizard posts. -/
theorem wip_post_balance_gate_witness :
    ((0.01 : ℚ) ≤ |c4_wiz_unbal.total_debit - c4_wiz_unbal.total_credit| ∧
      c4_wiz_unbal.action_post = .error (.userError "The journal entry is not balanced.")) ∧
    (c4_wiz_bal.line_ids ≠ [] ∧
      |c4_wiz_bal.total_debit - c4_wiz_bal.total_credit| < (0.01 : ℚ) ∧
      ∃ w' mv, c4_wiz_bal.action_post = .ok (w', mv) ∧ mv.state = .posted ∧
        w'.state = .posted ∧ w'.move_id = some mv) := by
  have hdiff : c4_wiz_unbal.total_debit - c4_wiz_unbal.total_credit = 1/50 := by
    norm_num [WipWizard.total_debit, WipWizard.total_credit, c4_wiz_unbal]
  have h1 : (0.01 : ℚ) ≤ |c4_wiz_unbal.total_debit - c4_wiz_unbal.total_credit| := by
    rw [hdiff, abs_of_pos (by norm_num)]
    norm_num
  have hdiff2 : c4_wiz_bal.total_debit - c4_wiz_bal.total_credit = 0 := by
    norm_num [WipWizard.total_debit, WipWizard.total_credit, c4_wiz_bal]
  have h2 : |c4_wiz_bal.total_debit - c4_wiz_bal.total_credit| < (0.01 : ℚ) := by
    rw [hdiff2]
    norm_num
  exact ⟨⟨h1, (wip_post_balance_gate c4_wiz_unbal).1 h1⟩,
    ⟨by simp [c4_wiz_bal], h2,
      (wip_post_balance_gate c4_wiz_bal).2 (by simp [c4_wiz_bal]) h2⟩⟩

/-- Every emitted line list has at most 3 lines, balances, and contains no
line with both amounts zero. -/
theorem build_wip_lines_props (C V : ℚ) (a : ResolvedAccounts) (mo : Option String) :
    (build_wip_lines C V a mo).length ≤ 3 ∧
    ((build_wip_lines C V a mo).map WipLineVals.debit).sum =
      ((build_wip_lines C V a mo).map WipLineVals.credit).sum ∧
    ∀ l ∈ build_wip_lines C V a mo, ¬(l.debit = 0 ∧ l.credit = 0) := by
  unfold build_wip_lines
  by_cases h1 : C = 0 <;> by_cases h2 : V = 0 <;> by_cases h3 : C + V = 0 <;>
    simp [h1, h2, h3]

/-- C3: with positive component value `C` and overhead value `V`,
`_get_line_vals` emits exactly 3 lines — credit stock valuation `C`, credit
overhead `V`, debit WIP `C+V`; and every emission has sum of debits equal to
sum of credits, omits zero-amount lines, and never exceeds 3 lines. -/
theorem wip_line_emission (env : WipEnv) (prods : List Production) (cutoff : Nat) :
    (∀ accounts, get_accounts_from_category env prods = .ok accounts →
      0 < calculate_component_value prods cutoff →
      0 < calculate_overhead_value env prods cutoff →
      get_line_vals env prods cutoff = .ok
        [ { sequence := 10, label := "WIP - Component Value", line_type := .component
            debit := 0, credit := calculate_component_value prods cutoff
            account_id := accounts.stock_valuation, mo_id := wip_mo_ref prods }
        , { sequence := 20, label := "WIP - Overhead", line_type := .overhead
            debit := 0, credit := calculate_overhead_value env prods cutoff
            account_id := accounts.overhead, mo_id := wip_mo_ref prods }
        , { sequence := 30, label := "Manufacturing WIP", line_type := .wip
            debit := calculate_component_value prods cutoff +
              calculate_overhead_value env prods cutoff
            credit := 0, account_id := accounts.wip, mo_id := wip_mo_ref prods } ]) ∧
    (∀ ls, get_line_vals env prods cutoff = .ok ls →
      ls.length ≤ 3 ∧
      (ls.map WipLineVals.debit).sum = (ls.map WipLineVals.credit).sum ∧
      ∀ l ∈ ls, ¬(l.debit = 0 ∧ l.credit = 0)) := by
  constructor
  · intro accounts hacc hc hv
    have hc' : calculate_component_value prods cutoff ≠ 0 := ne_of_gt hc
    have hv' : calculate_overhead_value env prods cutoff ≠ 0 := ne_of_gt hv
    have hs : calculate_component_value prods cutoff +
        calculate_overhead_value env prods cutoff ≠ 0 := ne_of_gt (add_pos hc hv)
    simp [get_line_vals, hacc, build_wip_lines, hc', hv', hs]
  · intro ls hls
    cases hacc : get_accounts_from_category env prods with
    | error e => simp [get_line_vals, hacc] at hls
    | ok a =>
      simp [get_line_vals, hacc] at hls
      subst hls
      exact build_wip_lines_props _ _ _ _

/-- Witness for C3: one manufacturing order with component value 300 and
overhead value 50 yields exactly the three balanced lines. -/
theorem wip_line_emission_witness :
    get_accounts_from_category c3_env [c3_mo] = .ok c3_accounts ∧
    0 < calculate_component_value [c3_mo] 9 ∧
    0 < calculate_overhead_value c3_env [c3_mo] 9 ∧
    get_line_vals c3_env [c3_mo] 9 = .ok
      [ { sequence := 10, label := "WIP - Component Value", line_type := .component
          debit := 0, credit := calculate_component_value [c3_mo] 9
          account_id := c3_accounts.stock_valuation, mo_id := wip_mo_ref [c3_mo] }
      , { sequence := 20, label := "WIP - Overhead", line_type := .overhead
          debit := 0, credit := calculate_overhead_value c3_env [c3_mo] 9
          account_id := c3_accounts.overhead, mo_id := wip_mo_ref [c3_mo] }
      , { sequence := 30, label := "Manufacturing WIP", line_type := .wip
          debit := calculate_component_value [c3_mo] 9 +
            calculate_overhead_value c3_env [c3_mo] 9
          credit := 0, account_id := c3_accounts.wip, mo_id := wip_mo_ref [c3_mo] } ] := by
  have hc : 0 < calculate_component_value [c3_mo] 9 := by
    norm_num [calculate_component_value, c3_mo, c3_ml, move_line_component_value, unit_price]
  have hv : 0 < calculate_overhead_value c3_env [c3_mo] 9 := by
    norm_num [calculate_overhead_value, c3_env, c3_mo, c3_wo, workorder_cost]
  exact ⟨rfl, hc, hv, (wip_line_emission c3_env [c3_mo] 9).1 c3_accounts rfl hc hv⟩

/-- C6 (amended): when the first manufacturing order has a product with a
category, any of stock-valuation/WIP/overhead resolving to nothing makes the
run fail with `ConfigurationMissing` naming the category and the missing
roles, before any line is built; but when the product has no category the
fallback accounts are returned without validation. -/
theorem wip_missing_accounts_validation (env : WipEnv) (prods : List Production)
    (cutoff : Nat) :
    (∀ p rest prod cat, prods = p :: rest → p.product_id = some prod →
      prod.categ_id = some cat →
      missing_account_names (category_resolved_accounts env cat) ≠ [] →
      get_line_vals env prods cutoff =
        .error (.configurationMissing cat.name
          (missing_account_names (category_resolved_accounts env cat)))) ∧
    (∀ p rest prod, prods = p :: rest → p.product_id = some prod →
      prod.categ_id = none →
      get_accounts_from_category env prods = .ok (fallback_accounts env)) := by
  constructor
  · intro p rest prod cat hp hprod hcat hm
    subst hp
    cases hms : missing_account_names (category_resolved_accounts env cat) with
    | nil => exact absurd hms hm
    | cons x xs =>
      simp [get_line_vals, get_accounts_from_category, hprod, hcat,
        validate_accounts, hms]
  · intro p rest prod hp hprod hcat
    subst hp
    simp [get_accounts_from_category, hprod, hcat]

/-- Witness for C6 (amended): a category with no configured accounts fails
naming all three roles; a product without category silently yields the
(unvalidated) fallbacks. -/
theorem wip_missing_accounts_validation_witness :
    missing_account_names (category_resolved_accounts c6_env c6_cat_bare) ≠ [] ∧
    get_line_vals c6_env [c6_mo_bare] 9 =
      .error (.configurationMissing c6_cat_bare.name
        (missing_account_names (category_resolved_accounts c6_env c6_cat_bare))) ∧
    get_accounts_from_category c6_env [c6_mo_nocat] = .ok (fallback_accounts c6_env) := by
  have hm : missing_account_names (category_resolved_accounts c6_env c6_cat_bare) ≠ [] := by
    simp [missing_account_names, category_resolved_accounts, c6_env, c6_cat_bare,
      resolve_wip_account, resolve_overhead_account]
  exact ⟨hm,
    (wip_missing_accounts_validation c6_env [c6_mo_bare] 9).1 c6_mo_bare []
      { categ_id := some c6_cat_bare } c6_cat_bare rfl rfl rfl hm,
    (wip_missing_accounts_validation c6_env [c6_mo_nocat] 9).2 c6_mo_nocat []
      { categ_id := none } rfl rfl rfl⟩

/-- C6 counterexample: a manufacturing order whose product has no category,
under a company with no WIP accounts configured — all three roles resolve to
nothing, yet `_get_line_vals` raises no `ConfigurationMissing` and builds
lines carrying an empty account. -/
theorem wip_nocat_silent_fallback_cex :
    get_line_vals c6_env [c6_mo_nocat] 9 = .ok c6_cex_lines ∧
    (fallback_accounts c6_env).stock_valuation = none ∧
    (fallback_accounts c6_env).wip = none ∧
    (fallback_accounts c6_env).overhead = none := by
  refine ⟨?_, rfl, rfl, rfl⟩
  have hc : calculate_component_value [c6_mo_nocat] 9 = 300 := by
    norm_num [calculate_component_value, c6_mo_nocat, move_line_component_value, unit_price]
  have hv : calculate_overhead_value c6_env [c6_mo_nocat] 9 = 0 := by
    norm_num [calculate_overhead_value, c6_mo_nocat]
  have hacc : get_accounts_from_category c6_env [c6_mo_nocat] = .ok (fallback_accounts c6_env) :=
    rfl
  have hsv : (fallback_accounts c6_env).stock_valuation = none := rfl
  have hwip : (fallback_accounts c6_env).wip = none := rfl
  have hov : (fallback_accounts c6_env).overhead = none := rfl
  have hname : c6_mo_nocat.name = "MO-NC" := rfl
  simp [get_line_vals, hacc, hc, hv, build_wip_lines, c6_cex_lines, wip_mo_ref,
    hsv, hwip, hov, hname]

/-- C2: on a draft instrument with a giro account, a resolvable partner
control account (payable for vendor, receivable for customer) and a general
journal, confirm produces one posted entry of exactly two lines — debit giro
account / credit partner account, both for the full amount — and moves the
record to `confirmed`; on a non-draft instrument it raises the draft-only
error. -/
theorem giro_confirm_posting (env : GiroEnv) (r : GiroRecord) :
    (∀ b, r.state ≠ .draft →
      r.action_confirm env b =
        .error (.userError "Only draft giro can be confirmed.", r)) ∧
    (∀ a pa j, r.state = .draft → r.giro_account_id = some a →
      partner_control_account env r = .ok pa → env.general_journal = some j →
      ∃ r' mv, r.action_confirm env true = .ok r' ∧ r'.state = .confirmed ∧
        r'.account_move_id = some mv ∧ mv.state = .posted ∧
        mv.line_ids.map (fun l => (l.account_id, l.debit, l.credit)) =
          [(a, r.amount, 0), (pa, 0, r.amount)]) := by
  constructor
  · intro b hs
    simp [GiroRecord.action_confirm, hs]
  · intro a pa j hs hga hpc hj
    have hmove : r.create_account_move env = .ok (confirm_move r a pa j) := by
      simp only [GiroRecord.create_account_move, confirm_move, hpc, hj, hga]
      rfl
    refine ⟨confirm_result r a pa j, (confirm_move r a pa j).action_post,
      ?_, rfl, rfl, rfl, ?_⟩
    · simp [GiroRecord.action_confirm, confirm_result, hs, hga, hmove]
    · simp [AccountMove.action_post, confirm_move]

/-- Witness for C2: the vendor giro `c2_giro` (amount 100, giro account 11,
payable account 201) confirms into a posted two-line entry; its confirmed
copy is refused. -/
theorem giro_confirm_posting_witness :
    (c2_giro_confirmed.state ≠ .draft ∧
      c2_giro_confirmed.action_confirm c2_env true =
        .error (.userError "Only draft giro can be confirmed.", c2_giro_confirmed)) ∧
    (c2_giro.state = .draft ∧ c2_giro.giro_account_id = some 11 ∧
      partner_control_account c2_env c2_giro = .ok 201 ∧
      c2_env.general_journal = some 2 ∧
      ∃ r' mv, c2_giro.action_confirm c2_env true = .ok r' ∧ r'.state = .confirmed ∧
        r'.account_move_id = some mv ∧ mv.state = .posted ∧
        mv.line_ids.map (fun l => (l.account_id, l.debit, l.credit)) =
          [(11, c2_giro.amount, 0), (201, 0, c2_giro.amount)]) :=
  ⟨⟨by decide, (giro_confirm_posting c2_env c2_giro_confirmed).1 true (by decide)⟩,
   ⟨rfl, rfl, rfl, rfl,
    (giro_confirm_posting c2_env c2_giro).2 11 201 2 rfl rfl rfl rfl⟩⟩

/-- C9 (amended): `action_cancel` checks only the primary entry — it raises
iff the primary entry exists and is posted, and otherwise writes state
`cancelled` whatever the current state is. -/
theorem giro_cancel_characterization (r : GiroRecord) :
    (∀ m, r.account_move_id = some m → m.state = .posted →
      r.action_cancel =
        .error (.userError "Cannot cancel. Please reverse the journal entry first.", r)) ∧
    ((∀ m, r.account_move_id = some m → m.state ≠ .posted) →
      r.action_cancel = .ok { r with state := .cancelled }) := by
  constructor
  · intro m hm hp
    simp [GiroRecord.action_cancel, hm, hp]
  · intro h
    cases hm : r.account_move_id with
    | none => simp [GiroRecord.action_cancel, hm]
    | some m => simp [GiroRecord.action_cancel, hm, h m hm]

/-- Witness for C9 (amended): a draft giro without primary entry cancels;
one with a posted primary entry is refused. -/
theorem giro_cancel_characterization_witness :
    ((∀ m, c9_draft.account_move_id = some m → m.state ≠ .posted) ∧
      c9_draft.action_cancel = .ok c9_cancelled) ∧
    (c9_posted_rec.account_move_id = some c9_posted_move ∧
      c9_posted_move.state = .posted ∧
      c9_posted_rec.action_cancel =
        .error (.userError "Cannot cancel. Please reverse the journal entry first.",
          c9_posted_rec)) :=
  ⟨⟨fun m hm => by simp [c9_draft, mkGiro] at hm,
    (giro_cancel_characterization c9_draft).2
      (fun m hm => by simp [c9_draft, mkGiro] at hm)⟩,
   ⟨rfl, rfl, (giro_cancel_characterization c9_posted_rec).1 c9_posted_move rfl rfl⟩⟩

/-- C9 counterexample: cancel is reachable on an already-cancelled
instrument and succeeds there (no validation error, contrary to the claim
that cancel in state `cancelled` raises). -/
theorem giro_cancel_state_check_cex :
    c9_draft.action_cancel = .ok c9_cancelled ∧
    c9_cancelled.state = .cancelled ∧
    c9_cancelled.action_cancel = .ok c9_cancelled :=
  ⟨rfl, rfl, rfl⟩

/-- C1 (amended): for each lifecycle transition the entry is created first
and, when creation fails, the record is returned unchanged; but the state
and link write precedes posting, so a posting failure leaves the record
already in the target state with the draft entry linked (atomicity is
delegated to the enclosing transaction, not achieved by ordering). -/
theorem giro_write_precedes_post (env : GiroEnv) (r : GiroRecord) :
    (∀ b e, r.state = .draft → r.giro_account_id ≠ none →
      r.create_account_move env = .error e →
      r.action_confirm env b = .error (e, r)) ∧
    (∀ m, r.state = .draft → r.giro_account_id ≠ none →
      r.create_account_move env = .ok m →
      r.action_confirm env false =
        .error (.postingError,
          recompute_flags { r with state := .confirmed, account_move_id := some m })) ∧
    (∀ m, r.state = .confirmed → r.is_cleared = false → r.journal_bank_id ≠ none →
      r.bank_account_id ≠ none → r.create_clearing_move env = .ok m →
      r.action_clearing env false =
        .error (.postingError,
          recompute_flags { r with clearing_move_id := some m, state := .cleared })) ∧
    (∀ pm, (r.state = .confirmed ∨ r.state = .cleared ∨ r.state = .clearing_reversed) →
      r.account_move_id = some pm → pm.state = .posted → r.is_reversed = false →
      r.action_reverse_giro env false =
        .error (.postingError,
          recompute_flags { r with
            reverse_move_id := some (r.create_reverse_move env pm ("Reverse: " ++ r.name))
            state := .reversed })) ∧
    (∀ cm, (r.state = .cleared ∨ r.state = .reversed) →
      r.clearing_move_id = some cm → cm.state = .posted → r.is_clearing_reversed = false →
      r.action_reverse_clearing env false =
        .error (.postingError,
          recompute_flags { r with
            reverse_clearing_move_id :=
              some (r.create_reverse_move env cm ("Reverse Clearing: " ++ r.name))
            state := .clearing_reversed })) := by
  refine ⟨fun b e hs hga hc => ?_, fun m hs hga hc => ?_, fun m hs hcl hjb hba hc => ?_,
    fun pm hs hm hp hrev => ?_, fun cm hs hm hp hrev => ?_⟩
  · simp [GiroRecord.action_confirm, hs, hga, hc]
  · simp [GiroRecord.action_confirm, hs, hga, hc]
  · simp [GiroRecord.action_clearing, hs, hcl, hjb, hba, hc]
  · rcases hs with hs | hs | hs <;>
      simp [GiroRecord.action_reverse_giro, hs, hm, hp, hrev]
  · rcases hs with hs | hs <;>
      simp [GiroRecord.action_reverse_clearing, hs, hm, hp, hrev]

/-- Witness for C1 (amended): `c1_giro` with a failing ledger post ends up
written to `confirmed` with the draft entry linked. -/
theorem giro_write_precedes_post_witness :
    c1_giro.state = .draft ∧ c1_giro.giro_account_id ≠ none ∧
    c1_giro.create_account_move c1_env = .ok c1_move ∧
    c1_giro.action_confirm c1_env false = .error (.postingError, c1_after) :=
  ⟨rfl, by decide, rfl,
    (giro_write_precedes_post c1_env c1_giro).2.1 c1_move rfl (by decide) rfl⟩

/-- C1 counterexample: posting of the primary entry fails on `c1_giro`, yet
the instrument is not left unchanged — its state was already written to
`confirmed` and the entry link set before the post. -/
theorem giro_confirm_partial_write_cex :
    c1_giro.state = .draft ∧
    c1_giro.action_confirm c1_env false = .error (.postingError, c1_after) ∧
    c1_after.state = .confirmed ∧
    c1_after.account_move_id = some c1_move :=
  ⟨rfl, rfl, rfl, rfl⟩

theorem state_count_one (r : GiroRecord) : state_count r = 1 := by
  cases h : r.state <;> simp [state_count, h]

theorem flags_consistent_recompute (r : GiroRecord) :
    flags_consistent (recompute_flags r) := ⟨rfl, rfl, rfl⟩

theorem action_confirm_ok_flags {env : GiroEnv} {b : Bool} {r r' : GiroRecord}
    (h : r.action_confirm env b = .ok r') : flags_consistent r' := by
  simp only [GiroRecord.action_confirm] at h
  split at h
  · simp at h
  split at h
  · simp at h
  split at h
  · simp at h
  · split at h
    · injection h with h
      subst h
      exact flags_consistent_recompute _
    · simp at h

theorem action_clearing_ok_flags {env : GiroEnv} {b : Bool} {r r' : GiroRecord}
    (h : r.action_clearing env b = .ok r') : flags_consistent r' := by
  simp only [GiroRecord.action_clearing] at h
  split at h
  · simp at h
  split at h
  · simp at h
  split at h
  · simp at h
  split at h
  · simp at h
  split at h
  · simp at h
  · split at h
    · injection h with h
      subst h
      exact flags_consistent_recompute _
    · simp at h

theorem action_reverse_giro_ok_flags {env : GiroEnv} {b : Bool} {r r' : GiroRecord}
    (h : r.action_reverse_giro env b = .ok r') : flags_consistent r' := by
  simp only [GiroRecord.action_reverse_giro] at h
  split at h
  · simp at h
  split at h
  · simp at h
  · split at h
    · simp at h
    split at h
    · simp at h
    · split at h
      · injection h with h
        subst h
        exact flags_consistent_recompute _
      · simp at h

theorem action_reverse_clearing_ok_flags {env : GiroEnv} {b : Bool} {r r' : GiroRecord}
    (h : r.action_reverse_clearing env b = .ok r') : flags_consistent r' := by
  simp only [GiroRecord.action_reverse_clearing] at h
  split at h
  · simp at h
  split at h
  · simp at h
  · split at h
    · simp at h
    split at h
    · simp at h
    · split at h
      · injection h with h
        subst h
        exact flags_consistent_recompute _
      · simp at h

theorem action_cancel_ok_flags {r r' : GiroRecord}
    (h : r.action_cancel = .ok r') (hf : flags_consistent r) : flags_consistent r' := by
  simp only [GiroRecord.action_cancel] at h
  split at h
  · split at h
    · simp at h
    · injection h with h
      subst h
      exact ⟨hf.1, hf.2.1, hf.2.2⟩
  · injection h with h
    subst h
    exact ⟨hf.1, hf.2.1, hf.2.2⟩

theorem action_draft_ok_flags {r r' : GiroRecord}
    (h : r.action_draft = .ok r') : flags_consistent r' := by
  simp only [GiroRecord.action_draft] at h
  split at h
  · simp at h
  split at h
  · simp at h
  · injection h with h
    subst h
    exact flags_consistent_recompute _

/-- C8: every reachable Giro record is in exactly one of the six states,
and each derived flag is true iff its entry link is non-null. -/
theorem giro_states_and_flags (r : GiroRecord) (h : GiroReachable r) :
    state_count r = 1 ∧
    (r.is_cleared = true ↔ r.clearing_move_id ≠ none) ∧
    (r.is_reversed = true ↔ r.reverse_move_id ≠ none) ∧
    (r.is_clearing_reversed = true ↔ r.reverse_clearing_move_id ≠ none) := by
  have hf : flags_consistent r := by
    induction h with
    | created pt pid amount date cheque ga jb ba => exact ⟨rfl, rfl, rfl⟩
    | confirm env b r0 r' h0 hstep ih => exact action_confirm_ok_flags hstep
    | clearing env b r0 r' h0 hstep ih => exact action_clearing_ok_flags hstep
    | reverse env b r0 r' h0 hstep ih => exact action_reverse_giro_ok_flags hstep
    | reverse_clearing env b r0 r' h0 hstep ih =>
      exact action_reverse_clearing_ok_flags hstep
    | cancel r0 r' h0 hstep ih => exact action_cancel_ok_flags hstep ih
    | reset r0 r' h0 hstep ih => exact action_draft_ok_flags hstep
  refine ⟨state_count_one r, ?_, ?_, ?_⟩
  · rw [hf.1]
    exact Option.isSome_iff_ne_none
  · rw [hf.2.1]
    exact Option.isSome_iff_ne_none
  · rw [hf.2.2]
    exact Option.isSome_iff_ne_none

/-- Witness for C8: a freshly created customer giro is reachable and
satisfies the invariant. -/
theorem giro_states_and_flags_witness :
    GiroReachable c8_giro ∧
    (state_count c8_giro = 1 ∧
      (c8_giro.is_cleared = true ↔ c8_giro.clearing_move_id ≠ none) ∧
      (c8_giro.is_reversed = true ↔ c8_giro.reverse_move_id ≠ none) ∧
      (c8_giro.is_clearing_reversed = true ↔ c8_giro.reverse_clearing_move_id ≠ none)) :=
  ⟨.created .customer 9 250 1 none (some 12) none none,
   giro_states_and_flags c8_giro (.created .customer 9 250 1 none (some 12) none none)⟩

end SwaAcc
